import Mathlib

/-!
Verification of the V2 inter-agent telemetry and safety-decision layer.

The development shallowly embeds the Python sources:
* `src/main_autonomous_complex.py` — `get_safe_action`, the sensor-to-action
  safety policy (distances modelled as rationals; list slices `l[a:b]`
  become `(l.drop a).take (b - a)`);
* `src/communication/encryption_utils.py` — `load_key`, `generate_key`,
  `encrypt_message`, `decrypt_message`, with the key file modelled as an
  `Option Key` state threaded through each call and the fresh random key
  material supplied as an explicit argument;
* `src/communication/receiver.py` and `src/communication/broadcaster.py` —
  the two UDP loops, modelled as runs over an explicit list of inbound
  datagrams (receiver) resp. of per-cycle send outcomes (broadcaster).
-/

/-- Raw key material (`secret.key` file contents), a byte sequence. -/
abbrev Key := List ℕ

/-- One agent's observation as consumed by `get_safe_action`:
`lidar` is `agent_obs.get('lidar', {}).get('cloud_points', [])` (a missing
entry defaults to the empty list), and `side_detector` is
`agent_obs.get('side_detector', [])` in its list-valued case (a missing
entry likewise defaults to `[]`). -/
structure AgentObs where
  lidar : List ℚ
  side_detector : List ℚ

/-- `min(xs)` on a Python list: `none` on the empty list (where Python would
raise), otherwise the least element. -/
def listMin : List ℚ → Option ℚ
  | [] => none
  | x :: xs => some (xs.foldl min x)

/-- The front-sector throttle rule of `get_safe_action`
(src/main_autonomous_complex.py lines 107-138): throttle starts at 0.7;
if the lidar cloud is non-empty and the front window `lidar[90:150]` is
non-empty, its minimum selects the throttle through the danger/warning/safe
threshold chain (10.0 / 20.0 / 30.0). -/
def front_throttle (lidar : List ℚ) : ℚ :=
  if 0 < lidar.length then
    match listMin ((lidar.drop 90).take 60) with
    | some m =>
        if m < 10 then -(1/2)
        else if m < 20 then 1/5
        else if m < 30 then 2/5
        else 7/10
    | none => 7/10
  else 7/10

/-- The side-sector steering rule of `get_safe_action`
(src/main_autonomous_complex.py lines 140-152): steering starts at 0.0;
if the lidar cloud is non-empty and both `lidar[150:180]` (left) and
`lidar[60:90]` (right) are non-empty, a left minimum below 5.0 steers
+0.1, else a right minimum below 5.0 steers -0.1. -/
def side_steering (lidar : List ℚ) : ℚ :=
  if 0 < lidar.length then
    match listMin ((lidar.drop 150).take 30), listMin ((lidar.drop 60).take 30) with
    | some ml, some mr =>
        if ml < 5 then 1/10
        else if mr < 5 then -(1/10)
        else 0
    | _, _ => 0
  else 0

/-- The side-detector clamp of `get_safe_action`
(src/main_autonomous_complex.py lines 154-162): when the side-detector list
has at least 4 elements it is unpacked as
`left_front, left_rear, right_rear, right_front = side_detector`, which in
Python raises `ValueError` unless the length is exactly 4; with
`left_front < 5.0 or right_front < 5.0` the throttle is clamped to
`min(throttle, 0.3)`. -/
def clamp_throttle (sd : List ℚ) (throttle : ℚ) : Except String ℚ :=
  if 4 ≤ sd.length then
    match sd with
    | [lf, _lr, _rr, rf] =>
        .ok (if lf < 5 ∨ rf < 5 then min throttle (3/10) else throttle)
    | _ => .error "ValueError: too many values to unpack"
  else
    .ok throttle

/-- `get_safe_action` (src/main_autonomous_complex.py lines 99-164): returns
`[steering, throttle]`, here the pair `(steering, throttle)`; the
side-detector block can raise, hence the `Except`. -/
def get_safe_action (o : AgentObs) : Except String (ℚ × ℚ) :=
  (clamp_throttle o.side_detector (front_throttle o.lidar)).map
    (fun t => (side_steering o.lidar, t))

lemma lidar_pos_of_front_min {l : List ℚ} {m : ℚ}
    (h : listMin ((l.drop 90).take 60) = some m) : 0 < l.length := by
  cases l with
  | nil => simp [listMin] at h
  | cons a t => simp

lemma lidar_pos_of_left_min {l : List ℚ} {m : ℚ}
    (h : listMin ((l.drop 150).take 30) = some m) : 0 < l.length := by
  cases l with
  | nil => simp [listMin] at h
  | cons a t => simp

lemma gsa_ok_iff (o : AgentObs) (s t : ℚ) :
    get_safe_action o = .ok (s, t) ↔
      s = side_steering o.lidar ∧
      clamp_throttle o.side_detector (front_throttle o.lidar) = .ok t := by
  unfold get_safe_action
  cases hc : clamp_throttle o.side_detector (front_throttle o.lidar) with
  | error e => simp [hc, Except.map]
  | ok th =>
      simp only [hc, Except.map, Except.ok.injEq, Prod.mk.injEq]
      constructor
      · rintro ⟨hs, ht⟩
        exact ⟨hs.symm, by rw [ht]⟩
      · rintro ⟨hs, ht⟩
        exact ⟨hs.symm, ht⟩

lemma clamp_throttle_ok_of_length_le {sd : List ℚ} (t : ℚ) (h : sd.length ≤ 4) :
    ∃ t', clamp_throttle sd t = .ok t' := by
  match sd, h with
  | [], _ => exact ⟨t, rfl⟩
  | [a], _ => exact ⟨t, rfl⟩
  | [a, b], _ => exact ⟨t, rfl⟩
  | [a, b, c], _ => exact ⟨t, rfl⟩
  | [a, b, c, d], _ => exact ⟨_, rfl⟩
  | a :: b :: c :: d :: e :: rest, h => simp at h

lemma clamp_throttle_error_of_length_gt {sd : List ℚ} (t : ℚ) (h : 4 < sd.length) :
    clamp_throttle sd t = .error "ValueError: too many values to unpack" := by
  match sd, h with
  | a :: b :: c :: d :: e :: rest, _ => rfl
  | [], h => simp at h
  | [a], h => simp at h
  | [a, b], h => simp at h
  | [a, b, c], h => simp at h
  | [a, b, c, d], h => simp at h

lemma side_steering_eq (l : List ℚ) :
    side_steering l =
      match listMin ((l.drop 150).take 30), listMin ((l.drop 60).take 30) with
      | some ml, some mr =>
          if ml < 5 then (1/10 : ℚ) else if mr < 5 then -(1/10) else 0
      | _, _ => 0 := by
  unfold side_steering
  by_cases hpos : 0 < l.length
  · rw [if_pos hpos]
  · rw [if_neg hpos]
    have hnil : l = [] := by
      cases l with
      | nil => rfl
      | cons a t => simp at hpos
    subst hnil
    rfl

/-- C1: with no side-clearance vector and a non-empty front window
`lidar[90:150]`, `get_safe_action` selects the throttle from the front
minimum `m`: `-0.5` for `m < 10`, `0.2` for `10 ≤ m < 20`, `0.4` for
`20 ≤ m < 30`, `0.7` for `30 ≤ m`. -/
theorem c1_front_throttle_thresholds (o : AgentObs) (m : ℚ)
    (hsd : o.side_detector = [])
    (hm : listMin ((o.lidar.drop 90).take 60) = some m) :
    (m < 10 → ∃ s, get_safe_action o = .ok (s, -(1/2))) ∧
    (10 ≤ m ∧ m < 20 → ∃ s, get_safe_action o = .ok (s, 1/5)) ∧
    (20 ≤ m ∧ m < 30 → ∃ s, get_safe_action o = .ok (s, 2/5)) ∧
    (30 ≤ m → ∃ s, get_safe_action o = .ok (s, 7/10)) := by
  have hpos := lidar_pos_of_front_min hm
  have hft : front_throttle o.lidar =
      if m < 10 then -(1/2)
      else if m < 20 then 1/5
      else if m < 30 then 2/5
      else 7/10 := by
    unfold front_throttle
    rw [if_pos hpos, hm]
  have hclamp : clamp_throttle o.side_detector (front_throttle o.lidar)
      = .ok (front_throttle o.lidar) := by
    rw [hsd]
    rfl
  have hgsa : get_safe_action o = .ok (side_steering o.lidar, front_throttle o.lidar) := by
    unfold get_safe_action
    rw [hclamp]
    rfl
  refine ⟨?_, ?_, ?_, ?_⟩ <;> intro h
  · exact ⟨_, by rw [hgsa, hft, if_pos h]⟩
  · exact ⟨_, by rw [hgsa, hft, if_neg (by linarith [h.1]), if_pos h.2]⟩
  · exact ⟨_, by rw [hgsa, hft, if_neg (by linarith [h.1]), if_neg (by linarith [h.1]),
      if_pos h.2]⟩
  · exact ⟨_, by rw [hgsa, hft, if_neg (by linarith), if_neg (by linarith),
      if_neg (by linarith)]⟩

/-- Witness for C1 at a concrete snapshot: 91 lidar points all at distance 5,
so the front window is `[5]` with minimum 5 < 10, and no side detector. -/
theorem c1_front_throttle_thresholds_witness :
    ∃ s, get_safe_action ⟨List.replicate 91 (5 : ℚ), []⟩ = .ok (s, -(1/2)) :=
  (c1_front_throttle_thresholds ⟨List.replicate 91 (5 : ℚ), []⟩ 5 rfl
    (by decide)).1 (by norm_num)

/-- C6: whenever `get_safe_action` returns a command, its steering obeys the
side-sector rule: with both side windows `lidar[150:180]` and `lidar[60:90]`
non-empty, a left minimum below 5 steers +0.1 (left wins even if the right
also triggers), else a right minimum below 5 steers -0.1, else 0; with either
side window empty the steering stays 0. -/
theorem c6_steering_rule (o : AgentObs) (s t : ℚ)
    (h : get_safe_action o = .ok (s, t)) :
    (∀ ml mr, listMin ((o.lidar.drop 150).take 30) = some ml →
        listMin ((o.lidar.drop 60).take 30) = some mr →
        s = if ml < 5 then 1/10 else if mr < 5 then -(1/10) else 0) ∧
    ((listMin ((o.lidar.drop 150).take 30) = none ∨
      listMin ((o.lidar.drop 60).take 30) = none) → s = 0) := by
  have hs : s = side_steering o.lidar := ((gsa_ok_iff o s t).mp h).1
  rw [hs, side_steering_eq]
  constructor
  · intro ml mr hml hmr
    rw [hml, hmr]
  · intro hnone
    rcases hnone with hn | hn
    · rw [hn]
    · rw [hn]
      cases listMin ((o.lidar.drop 150).take 30) <;> rfl

set_option maxRecDepth 8000 in
/-- Witness for C6 at a concrete snapshot: 151 lidar points all at distance
50, so both side windows are non-empty with minimum 50 ≥ 5 and the steering
is the no-obstacle value 0. -/
theorem c6_steering_rule_witness :
    (0 : ℚ) = if (50 : ℚ) < 5 then 1/10 else if (50 : ℚ) < 5 then -(1/10) else 0 :=
  (c6_steering_rule ⟨List.replicate 151 (50 : ℚ), []⟩ 0 (7/10)
    (by rfl)).1 50 50 (by decide) (by decide)

/-- C7: with a 4-element side-clearance vector whose `left_front` or
`right_front` entry is below 5, `get_safe_action` returns the front-rule
throttle clamped by `min (· , 0.3)`, and the clamp never increases the
throttle. -/
theorem c7_side_clamp (o : AgentObs) (lf lr rr rf : ℚ)
    (hsd : o.side_detector = [lf, lr, rr, rf])
    (h5 : lf < 5 ∨ rf < 5) :
    get_safe_action o = .ok (side_steering o.lidar, min (front_throttle o.lidar) (3/10)) ∧
    min (front_throttle o.lidar) (3/10) ≤ front_throttle o.lidar := by
  refine ⟨?_, min_le_left _ _⟩
  have hclamp : clamp_throttle o.side_detector (front_throttle o.lidar)
      = .ok (min (front_throttle o.lidar) (3/10)) := by
    rw [hsd]
    show Except.ok (if lf < 5 ∨ rf < 5 then min (front_throttle o.lidar) (3/10)
        else front_throttle o.lidar) = _
    rw [if_pos h5]
  unfold get_safe_action
  rw [hclamp]
  rfl

/-- Witness for C7 at a concrete snapshot: no lidar data (default throttle
0.7) and side-clearance vector `[4, 50, 50, 50]` with `left_front = 4 < 5`,
so the returned throttle is `min(0.7, 0.3) = 0.3`. -/
theorem c7_side_clamp_witness :
    get_safe_action ⟨[], [4, 50, 50, 50]⟩ = .ok (0, 3/10) := by
  have h := (c7_side_clamp ⟨[], [4, 50, 50, 50]⟩ 4 50 50 50 rfl (Or.inl (by norm_num))).1
  norm_num [side_steering, front_throttle, min_def] at h
  exact h

/-- C8: with an empty (or missing, which defaults to empty) lidar cloud and
no side-clearance vector, `get_safe_action` returns exactly the default
command `(steering, throttle) = (0, 0.7)`; moreover it never raises for any
snapshot whose side-detector list is short (length at most 4). -/
theorem c8_default_command (o : AgentObs)
    (hl : o.lidar = []) (hsd : o.side_detector = []) :
    get_safe_action o = .ok (0, 7/10) ∧
    ∀ o' : AgentObs, o'.side_detector.length ≤ 4 →
      ∃ c, get_safe_action o' = .ok c := by
  constructor
  · obtain ⟨l, sd⟩ := o
    simp only at hl hsd
    subst hl
    subst hsd
    rfl
  · intro o' h
    obtain ⟨t', ht'⟩ := clamp_throttle_ok_of_length_le (front_throttle o'.lidar) h
    exact ⟨(side_steering o'.lidar, t'), by unfold get_safe_action; rw [ht']; rfl⟩

/-- Witness for C8 at the empty snapshot. -/
theorem c8_default_command_witness :
    get_safe_action ⟨[], []⟩ = .ok (0, 7/10) :=
  (c8_default_command ⟨[], []⟩ rfl rfl).1

/-- C10: a side-detector list with strictly more than 4 elements passes the
`len >= 4` guard but fails the 4-way tuple unpacking, so `get_safe_action`
raises (returns an error) instead of a command. -/
theorem c10_long_side_detector_raises (o : AgentObs)
    (h : 4 < o.side_detector.length) :
    get_safe_action o = .error "ValueError: too many values to unpack" := by
  unfold get_safe_action
  rw [clamp_throttle_error_of_length_gt (front_throttle o.lidar) h]
  rfl

/-- Witness for C10 at a concrete snapshot: a 5-element side-detector list. -/
theorem c10_long_side_detector_raises_witness :
    get_safe_action ⟨[], [1, 2, 3, 4, 5]⟩ = .error "ValueError: too many values to unpack" :=
  c10_long_side_detector_raises ⟨[], [1, 2, 3, 4, 5]⟩ (by decide)

/-- Modelled from the spec: a Fernet ciphertext envelope produced by the
third-party `cryptography.fernet` library (not part of this repository).
Per the spec's SecureChannel contract, the envelope embeds a fresh random
nonce and an authentication tag bound to the encrypting key; the model
carries the producing key and nonce explicitly, standing for that tag:
decryption succeeds exactly when the same key is supplied. -/
structure FernetToken where
  key : Key
  nonce : ℕ
  msg : String
deriving DecidableEq

/-- An inbound UDP datagram as seen by the receiver: either a well-formed
Fernet envelope or arbitrary garbage bytes. -/
inductive Datagram where
  | token (t : FernetToken)
  | garbage (raw : List ℕ)
deriving DecidableEq

/-- Modelled from the spec: `Fernet(key).encrypt(message)` — authenticated
encryption under `key` with a fresh random `nonce`. -/
def fernetEncrypt (key : Key) (nonce : ℕ) (msg : String) : FernetToken :=
  ⟨key, nonce, msg⟩

/-- Modelled from the spec: `Fernet(key).decrypt(data)` — returns the
plaintext when `data` is an envelope produced under the same key, and fails
(raises `InvalidToken`) on a foreign-keyed envelope or garbage bytes. -/
def fernetDecrypt (key : Key) : Datagram → Except String String
  | .token t => if t.key = key then .ok t.msg else .error "InvalidToken"
  | .garbage _ => .error "InvalidToken"

/-- `generate_key` (src/communication/encryption_utils.py lines 6-10):
draws fresh random key material (supplied here as the argument `fresh`),
writes it to `secret.key`, and returns it. The key file is the
`Option Key` state. -/
def generate_key (fresh : Key) : Key × Option Key :=
  (fresh, some fresh)

/-- `load_key` (src/communication/encryption_utils.py lines 12-16): if
`secret.key` does not exist, generate (and persist) a key; otherwise read
and return the persisted bytes unchanged. -/
def load_key (fresh : Key) : Option Key → Key × Option Key
  | none => generate_key fresh
  | some k => (k, some k)

/-- `encrypt_message` (src/communication/encryption_utils.py lines 18-20):
load the key, then encrypt the message under it. -/
def encrypt_message (fresh : Key) (nonce : ℕ) (st : Option Key) (message : String) :
    FernetToken × Option Key :=
  let p := load_key fresh st
  (fernetEncrypt p.1 nonce message, p.2)

/-- `decrypt_message` (src/communication/encryption_utils.py lines 22-24):
load the key, then decrypt the datagram under it; the `Except` is the
`InvalidToken` exception Fernet raises on failure. -/
def decrypt_message (fresh : Key) (st : Option Key) (data : Datagram) :
    Except String String × Option Key :=
  let p := load_key fresh st
  (fernetDecrypt p.1 data, p.2)

/-- The `start_receiver` loop (src/communication/receiver.py lines 4-14) run
over an explicit list of inbound datagrams: each is decrypted inside
`try/except Exception: pass`, so a successful decryption surfaces (prints)
the message and a failure is silently discarded; the loop never stops early.
Returns the surfaced messages in arrival order and the final key-file
state. -/
def run_receiver (fresh : Key) : Option Key → List Datagram → List String × Option Key
  | st, [] => ([], st)
  | st, d :: ds =>
      let p := decrypt_message fresh st d
      let rest := run_receiver fresh p.2 ds
      match p.1 with
      | .ok m => (m :: rest.1, rest.2)
      | .error _ => rest

/-- A JSON value as produced for the broadcaster's status dictionary. -/
inductive JVal where
  | str (s : String)
  | num (q : ℚ)
deriving DecidableEq

/-- The broadcaster's status dictionary
(src/communication/broadcaster.py line 8):
`data = {"id": agent_id, "status": "ACTIVE", "speed": 25.0}`, as the
insertion-ordered field list `json.dumps` serializes. -/
def broadcast_record (agent_id : String) : List (String × JVal) :=
  [("id", .str agent_id), ("status", .str "ACTIVE"), ("speed", .num 25)]

/-- JSON string escaping for one character (backslash and quote, the only
escapes the broadcaster's payloads can need). -/
def json_escape_char (c : Char) : List Char :=
  if c = '\\' then ['\\', '\\']
  else if c = '"' then ['\\', '"']
  else [c]

/-- A JSON string literal: quoted, with backslash and quote escaped. -/
def json_str (s : String) : String :=
  "\"" ++ String.mk (s.data.map json_escape_char).flatten ++ "\""

/-- One serialized JSON value (floats print with a trailing `.0` as Python's
`repr` does for whole floats such as `25.0`). -/
def json_val : JVal → String
  | .str s => json_str s
  | .num q => if q.den = 1 then toString q.num ++ ".0" else toString q

/-- `json.dumps` on a flat string-keyed dictionary, in insertion order with
Python's default separators. -/
def json_dumps (fields : List (String × JVal)) : String :=
  "\x7b" ++ String.intercalate ", "
    (fields.map (fun p => json_str p.1 ++ ": " ++ json_val p.2)) ++ "\x7d"

/-- One cycle of the `start_broadcaster` while-loop body
(src/communication/broadcaster.py lines 7-11): build the status dictionary,
serialize it, and encrypt it (which loads — on first use creates — the
key). -/
def broadcaster_cycle (agent_id : String) (fresh : Key) (nonce : ℕ) (st : Option Key) :
    FernetToken × Option Key :=
  encrypt_message fresh nonce st (json_dumps (broadcast_record agent_id))

/-- The `start_broadcaster` loop (src/communication/broadcaster.py lines
4-11) run over a schedule of cycles, each giving that cycle's encryption
nonce and the outcome of its `sock.sendto` call. The loop body has no
exception handling, so a send that raises propagates and ends the run.
Returns how many cycles completed, the propagated error if one occurred,
and the final key-file state. -/
def run_broadcaster (agent_id : String) (fresh : Key) :
    Option Key → List (ℕ × Except String Unit) → ℕ × Option String × Option Key
  | st, [] => (0, none, st)
  | st, c :: rest =>
      let p := broadcaster_cycle agent_id fresh c.1 st
      match c.2 with
      | .ok _ =>
          let r := run_broadcaster agent_id fresh p.2 rest
          (r.1 + 1, r.2.1, r.2.2)
      | .error e => (0, some e, p.2)

/-- C2: with a single key `k` persisted in the key file and left unchanged,
`decrypt_message` inverts `encrypt_message` on every plaintext, whatever
fresh randomness either call would have drawn. -/
theorem c2_roundtrip (k fresh1 fresh2 : Key) (nonce : ℕ) (P : String) :
    (decrypt_message fresh2 (encrypt_message fresh1 nonce (some k) P).2
      (.token (encrypt_message fresh1 nonce (some k) P).1)).1 = .ok P := by
  simp [encrypt_message, decrypt_message, load_key, fernetEncrypt, fernetDecrypt]

/-- C3: feeding the receiver loop a well-formed envelope, then garbage, then
another well-formed envelope surfaces exactly the two well-formed messages
in arrival order; the garbage datagram is discarded without stopping the
loop (the run is total and the key-file state is unchanged). -/
theorem c3_receiver_tolerates_garbage (k fresh g : Key) (n1 n2 : ℕ) (m1 m2 : String) :
    run_receiver fresh (some k)
      [.token (fernetEncrypt k n1 m1), .garbage g, .token (fernetEncrypt k n2 m2)]
      = ([m1, m2], some k) := by
  simp [run_receiver, decrypt_message, load_key, fernetEncrypt, fernetDecrypt]

/-- C9: with no key file, `load_key` returns the freshly generated key and
persists exactly it; every subsequent call, whatever fresh randomness it
would have drawn, returns those same bytes and leaves the store unchanged. -/
theorem c9_load_key_first_then_stable (fresh : Key) :
    load_key fresh none = (fresh, some fresh) ∧
    ∀ fresh' : Key, load_key fresh' (some fresh) = (fresh, some fresh) :=
  ⟨rfl, fun _ => rfl⟩

/-- Counterexample to C5: the broadcaster's status dictionary keys its agent
identifier as `"id"`, not `"agent_id"`, so the encoded record's field names
are not `agent_id`, `status`, `speed`. -/
theorem c5_counterexample :
    ¬ (broadcast_record "Autonomous_Agent").map Prod.fst
        = ["agent_id", "status", "speed"] := by
  decide

/-- C5 (amended): the plaintext encrypted by each broadcaster cycle is the
serialized status record, whose field names are exactly `id`, `status`,
`speed`, with the caller's `agent_id` as the value of the `id` field. -/
theorem c5_amended_field_names (agent_id : String) (fresh : Key) (nonce : ℕ)
    (st : Option Key) :
    (broadcaster_cycle agent_id fresh nonce st).1.msg
        = json_dumps (broadcast_record agent_id) ∧
    (broadcast_record agent_id).map Prod.fst = ["id", "status", "speed"] ∧
    (broadcast_record agent_id).lookup "id" = some (.str agent_id) :=
  ⟨rfl, rfl, rfl⟩

lemma run_broadcaster_all_ok (agent_id : String) (fresh : Key) :
    ∀ (sched : List (ℕ × Except String Unit)) (st : Option Key),
      (∀ c ∈ sched, c.2 = Except.ok ()) →
      (run_broadcaster agent_id fresh st sched).1 = sched.length ∧
      (run_broadcaster agent_id fresh st sched).2.1 = none := by
  intro sched
  induction sched with
  | nil => exact fun st _ => ⟨rfl, rfl⟩
  | cons c rest ih =>
      intro st h
      obtain ⟨n, outcome⟩ := c
      have hc : outcome = Except.ok () := h (n, outcome) (by simp)
      subst hc
      have hrest := ih (broadcaster_cycle agent_id fresh n st).2
        (fun d hd => h d (List.mem_cons_of_mem _ hd))
      simp [run_broadcaster, hrest.1, hrest.2]

/-- Counterexample to C4: a two-cycle schedule whose first send raises; the
loop terminates at once — zero cycles complete, the error propagates, and
the second cycle never runs — contrary to the failure being absorbed. -/
theorem c4_counterexample :
    (run_broadcaster "Autonomous_Agent" [0] (some [0])
        [(0, Except.error "ECONNREFUSED"), (1, Except.ok ())]).1 = 0 ∧
    ¬ (run_broadcaster "Autonomous_Agent" [0] (some [0])
        [(0, Except.error "ECONNREFUSED"), (1, Except.ok ())]).1 = 2 ∧
    (run_broadcaster "Autonomous_Agent" [0] (some [0])
        [(0, Except.error "ECONNREFUSED"), (1, Except.ok ())]).2.1
      = some "ECONNREFUSED" := by
  refine ⟨rfl, ?_, rfl⟩
  decide

/-- C4 (amended): the broadcaster's loop body has no exception handling.
When every send returns without raising — as a UDP `sendto` does when no
listener is bound, the datagram being silently dropped — every cycle of the
schedule runs; but a cycle whose send raises terminates the loop
immediately, the error propagating with no later cycle run. -/
theorem c4_amended_no_send_handling (agent_id : String) (fresh : Key)
    (st : Option Key) (sched : List (ℕ × Except String Unit)) :
    ((∀ c ∈ sched, c.2 = Except.ok ()) →
      (run_broadcaster agent_id fresh st sched).1 = sched.length ∧
      (run_broadcaster agent_id fresh st sched).2.1 = none) ∧
    (∀ (nonce : ℕ) (e : String) (rest : List (ℕ × Except String Unit)),
      (run_broadcaster agent_id fresh st ((nonce, Except.error e) :: rest)).1 = 0 ∧
      (run_broadcaster agent_id fresh st ((nonce, Except.error e) :: rest)).2.1
        = some e) :=
  ⟨run_broadcaster_all_ok agent_id fresh sched st,
   fun _ _ _ => ⟨rfl, rfl⟩⟩

/-- Witness for the amended C4 at a concrete schedule: two non-raising sends
complete both cycles. -/
theorem c4_amended_no_send_handling_witness :
    (run_broadcaster "Autonomous_Agent" [0] (some [0])
        [(0, Except.ok ()), (1, Except.ok ())]).1 = 2 :=
  ((c4_amended_no_send_handling "Autonomous_Agent" [0] (some [0])
      [(0, Except.ok ()), (1, Except.ok ())]).1
    (by intro c hc; simp at hc; rcases hc with rfl | rfl <;> rfl)).1
